import Mathlib

/-!
Verification of the Bengali MoreHopQA translation pipeline.

The definitions below are a shallow embedding of the Python sources in
src/some_testings.  The pipeline of translate_to_bn_v3.py is embedded as
translate_text_v3, translate_item_v3, translation_loop,
translate_and_push_dataset and run_main; the per-record mapper of
translate_v4.py as translate_text_v4, translate_context_v4 and
translate_item_v4.  External effects are made explicit: the translation
backend is a parameter (the outcome of each attempt), checkpoint storage
is a parameter recording write success, and the file operations of
save_checkpoint are reified as a list of filesystem operations.
-/

set_option maxRecDepth 40000

namespace BengaliMorehop

/-- JSON-like field values of a dataset record. -/
inductive Value where
  | str  : String → Value
  | int  : Int → Value
  | list : List Value → Value
  | dict : List (String × Value) → Value

/-- A dataset record: an ordered mapping from field names to values
(Python dict; keys are unique in every real record). -/
abbrev Rec := List (String × Value)

/-- Mapping access: the binding of the first occurrence of the key. -/
def dictLookup : Rec → String → Option Value
  | [], _ => none
  | (k2, v) :: rest, k => if k2 = k then some v else dictLookup rest k

/-- Mapping access item[k], modelling the Python KeyError raised on a
missing field as an Except.error carrying the key name (a Python KeyError
holds exactly the key, not the position of the record in the dataset). -/
def getFieldE (item : Rec) (k : String) : Except String Value :=
  match dictLookup item k with
  | some v => .ok v
  | none => .error ("KeyError: " ++ k)

/-- Constant MAX_RETRIES of translate_to_bn_v3.py. -/
def MAX_RETRIES : Nat := 3

/-- Constant CHECKPOINT_INTERVAL of translate_to_bn_v3.py. -/
def CHECKPOINT_INTERVAL : Nat := 100

/-- Result of one translate_text call: the returned text, the number of
Translation Service invocations made, and whether a failure message was
logged. -/
structure TransResult where
  text : String
  calls : Nat
  warned : Bool
  deriving DecidableEq

/-- The retry loop of translate_text in translate_to_bn_v3.py.  attempts i
is the outcome of the i-th Translation Service invocation for this text
(some t on success, none when the call raises); k is the index of the
current attempt and r the number of attempts remaining, so the loop is
entered with k = 0 and r = MAX_RETRIES.  On success the translated text is
returned; on the last failed attempt a warning is logged and the original
text returned; otherwise the loop sleeps RETRY_DELAY and continues. -/
def retry_loop (attempts : Nat → Option String) (text : String) : Nat → Nat → TransResult
  | _, 0 => ⟨text, 0, false⟩
  | k, r + 1 =>
    match attempts k with
    | some t => ⟨t, 1, false⟩
    | none =>
      if r = 0 then ⟨text, 1, true⟩
      else
        let rest := retry_loop attempts text (k + 1) r
        ⟨rest.text, rest.calls + 1, rest.warned⟩

/-- translate_text of translate_to_bn_v3.py (lines 49-65): empty text is
returned immediately without any service invocation; otherwise up to
MAX_RETRIES attempts are made. -/
def translate_text_v3 (attempts : Nat → Option String) (text : String) : TransResult :=
  if text = "" then ⟨"", 0, false⟩
  else retry_loop attempts text 0 MAX_RETRIES

/-- translate_text of translate_v4.py (lines 13-19): a single service
invocation with no empty-text check and no retry; on an exception the
error is logged and the original text returned. -/
def translate_text_v4 (svc : String → Option String) (text : String) : TransResult :=
  match svc text with
  | some t => ⟨t, 1, false⟩
  | none => ⟨text, 1, true⟩

/-- Attempt outcomes where every service call fails. -/
def attemptsAllFail : Nat → Option String := fun _ => none

/-- Result of applying translate_text to one field value, keeping only the
returned text: a string argument is translated (tr is the end-to-end text
result of translate_text); on any other argument the backend call raises,
the exception is absorbed by translate_text, and the original value is
returned unchanged. -/
def trValue (tr : String → String) : Value → Value
  | .str s => .str (tr s)
  | v => v

/-- Body of the loop of translate_question_decomposition
(translate_to_bn_v3.py lines 73-79, identical in translate_v4.py lines
29-34): sub_id is copied, question, answer and paragraph_support_title are
translated; the fields are read in the order of the Python dict literal,
so the first missing one raises KeyError. -/
def translate_decomp_item (tr : String → String) (item : Rec) : Except String Rec :=
  match getFieldE item "sub_id" with
  | .error e => .error e
  | .ok s =>
  match getFieldE item "question" with
  | .error e => .error e
  | .ok q =>
  match getFieldE item "answer" with
  | .error e => .error e
  | .ok a =>
  match getFieldE item "paragraph_support_title" with
  | .error e => .error e
  | .ok p =>
    .ok [("sub_id", s), ("question", trValue tr q), ("answer", trValue tr a),
         ("paragraph_support_title", trValue tr p)]

/-- One iteration of the loop over decomp_list: each element must be a
mapping (iterating over item fields of a non-mapping raises). -/
def translate_decomp_entry (tr : String → String) : Value → Except String Value
  | .dict d =>
    match translate_decomp_item tr d with
    | .error e => .error e
    | .ok d2 => .ok (.dict d2)
  | _ => .error "TypeError: decomposition item is not a mapping"

/-- The loop of translate_question_decomposition over decomp_list, in
order, stopping at the first raising element. -/
def translate_decomp_list (tr : String → String) : List Value → Except String (List Value)
  | [] => .ok []
  | item :: rest =>
    match translate_decomp_entry tr item with
    | .error e => .error e
    | .ok item2 =>
      match translate_decomp_list tr rest with
      | .error e => .error e
      | .ok rest2 => .ok (item2 :: rest2)

/-- translate_question_decomposition (translate_to_bn_v3.py lines 67-81,
translate_v4.py lines 25-36): requires a list (an empty or falsy one is
returned as the empty list) and translates its items in order. -/
def translate_question_decomposition (tr : String → String) : Value → Except String Value
  | .list items =>
    match translate_decomp_list tr items with
    | .error e => .error e
    | .ok out => .ok (.list out)
  | _ => .error "TypeError: question_decomposition is not a list"

/-- translate_context of translate_v4.py (lines 38-43): reads title, then
paragraphs, building a mapping with the translated title and the list of
independently translated paragraphs (translate_list, line 21-23). -/
def translate_context_v4 (tr : String → String) : Value → Except String Value
  | .dict d =>
    match dictLookup d "title" with
    | none => .error "KeyError: title"
    | some t =>
      match dictLookup d "paragraphs" with
      | none => .error "KeyError: paragraphs"
      | some ps =>
        match ps with
        | .list l =>
          .ok (.dict [("title", trValue tr t),
                      ("paragraphs", .list (l.map (trValue tr)))])
        | _ => .error "TypeError: paragraphs is not a list"
  | _ => .error "TypeError: context is not a mapping"

/-- translate_item of translate_v4.py (lines 45-57): iterates over the
fields of the record in order; question_decomposition and context are
dispatched to their structural translators, every other string value is
translated and every other non-string value copied unchanged. -/
def translate_item_v4 (tr : String → String) : Rec → Except String Rec
  | [] => .ok []
  | (k, v) :: rest =>
    match (if k = "question_decomposition" then translate_question_decomposition tr v
           else if k = "context" then translate_context_v4 tr v
           else .ok (trValue tr v)) with
    | .error e => .error e
    | .ok v2 =>
      match translate_item_v4 tr rest with
      | .error e => .error e
      | .ok rest2 => .ok ((k, v2) :: rest2)

/-- The per-record mapping of translate_and_push_dataset in
translate_to_bn_v3.py (lines 175-189): a dict literal with a fixed key
set, whose values are computed in source order (each field access raising
KeyError if missing); the scalar text fields and context are passed
through translate_text, question_decomposition through its structural
translator, and the four metadata fields are copied unchanged. -/
def translate_item_v3 (tr : String → String) (item : Rec) : Except String Rec :=
  match getFieldE item "question" with
  | .error e => .error e
  | .ok q =>
  match getFieldE item "answer" with
  | .error e => .error e
  | .ok a =>
  match getFieldE item "context" with
  | .error e => .error e
  | .ok c =>
  match getFieldE item "previous_question" with
  | .error e => .error e
  | .ok pq =>
  match getFieldE item "previous_answer" with
  | .error e => .error e
  | .ok pa =>
  match getFieldE item "question_decomposition" with
  | .error e => .error e
  | .ok qdv =>
  match translate_question_decomposition tr qdv with
  | .error e => .error e
  | .ok qd =>
  match getFieldE item "question_on_last_hop" with
  | .error e => .error e
  | .ok qlh =>
  match getFieldE item "answer_type" with
  | .error e => .error e
  | .ok aty =>
  match getFieldE item "previous_answer_type" with
  | .error e => .error e
  | .ok paty =>
  match getFieldE item "no_of_hops" with
  | .error e => .error e
  | .ok nh =>
  match getFieldE item "reasoning_type" with
  | .error e => .error e
  | .ok rt =>
    .ok [("question", trValue tr q), ("answer", trValue tr a),
         ("context", trValue tr c), ("previous_question", trValue tr pq),
         ("previous_answer", trValue tr pa), ("question_decomposition", qd),
         ("question_on_last_hop", trValue tr qlh), ("answer_type", aty),
         ("previous_answer_type", paty), ("no_of_hops", nh),
         ("reasoning_type", rt)]

/-- A concrete translation backend used at counterexample inputs: it
translates the text x to the different text y and is the identity
elsewhere. -/
def tr0 : String → String := fun s => if s = "x" then "y" else s

/-- A concrete record with one text field and one non-string field. -/
def item1 : Rec := [("question", Value.str "x"), ("no_of_hops", Value.int 2)]

/-- The translate_item_v4 image of item1 under tr0. -/
def out1 : Rec := [("question", Value.str "y"), ("no_of_hops", Value.int 2)]

/-- The four metadata fields of a record. -/
def metadataFields : List String :=
  ["answer_type", "previous_answer_type", "no_of_hops", "reasoning_type"]

/-- A concrete context record. -/
def ctx1 : Rec :=
  [("title", Value.str "x"),
   ("paragraphs", Value.list [Value.str "x", Value.str "p"])]

/-- A checkpoint: the count of processed records paired with the list of
translated records persisted for it. -/
abbrev Checkpoint := Nat × List Rec

/-- The record loop of translate_and_push_dataset in translate_to_bn_v3.py
(lines 174-195): records are translated in order and appended to
translated_data; after the record with zero-based index idx, when
(idx + 1) is a multiple of CHECKPOINT_INTERVAL, save_checkpoint is called
with the accumulated list.  writeOk n tells whether the checkpoint write
at count n succeeds; save_checkpoint has no exception handler, so a
failing write raises and aborts the loop.  A record translation error
(KeyError) likewise aborts the loop. -/
def translation_loop (tr : String → String) (writeOk : Nat → Bool) :
    List Rec → Nat → List Rec → Except String (List Rec × List Checkpoint)
  | [], _, acc => .ok (acc, [])
  | r :: rest, idx, acc =>
    match translate_item_v3 tr r with
    | .error e => .error e
    | .ok r2 =>
      let acc2 := acc ++ [r2]
      if (idx + 1) % CHECKPOINT_INTERVAL = 0 then
        if writeOk (idx + 1) then
          match translation_loop tr writeOk rest (idx + 1) acc2 with
          | .error e => .error e
          | .ok (res, cps) => .ok (res, (idx + 1, acc2) :: cps)
        else .error "checkpoint write failed"
      else translation_loop tr writeOk rest (idx + 1) acc2

/-- translate_and_push_dataset of translate_to_bn_v3.py (lines 160-226).
The parameter store holds the checkpoints persisted by earlier runs; the
source never reads them: no load operation exists anywhere in the
repository, and the run always starts with translated_data = [] at
index 0. -/
def translate_and_push_dataset (tr : String → String) (writeOk : Nat → Bool)
    (store : List Checkpoint) (ds : List Rec) :
    Except String (List Rec × List Checkpoint) :=
  translation_loop tr writeOk ds 0 []

/-- main of translate_to_bn_v3.py (lines 228-235), returning the process
exit status and the error log lines: an exception is logged inside
translate_and_push_dataset, re-raised, logged again in main and re-raised
once more, terminating the process with a non-zero status. -/
def run_main (tr : String → String) (writeOk : Nat → Bool)
    (store : List Checkpoint) (ds : List Rec) : Nat × List String :=
  match translate_and_push_dataset tr writeOk store ds with
  | .ok _ => (0, [])
  | .error e => (1, ["An error occurred: " ++ e, "Process failed: " ++ e])

/-- A schema-conforming record whose text fields the identity backend
leaves unchanged. -/
def sampleRec : Rec :=
  [("question", Value.str "q"), ("answer", Value.str "a"),
   ("context", Value.str "c"), ("previous_question", Value.str "pq"),
   ("previous_answer", Value.str "pa"),
   ("question_decomposition", Value.list []),
   ("question_on_last_hop", Value.str "qh"),
   ("answer_type", Value.str "t"), ("previous_answer_type", Value.str "t"),
   ("no_of_hops", Value.int 2), ("reasoning_type", Value.str "r")]

/-- A dataset of exactly CHECKPOINT_INTERVAL records. -/
def ds100 : List Rec := List.replicate 100 sampleRec

/-- Filesystem operations that checkpoint persistence can perform. -/
inductive FsOp where
  | mkdirp : String → FsOp
  | write : String → List Rec → FsOp
  | rename : String → String → FsOp

/-- The path save_checkpoint opens for a given checkpoint number. -/
def checkpoint_path (n : Nat) : String :=
  "checkpoints/checkpoint_" ++ toString n ++ ".json"

/-- save_checkpoint of translate_to_bn_v3.py (lines 123-132) as the
sequence of filesystem operations it performs: it ensures the checkpoint
directory exists and then opens the final checkpoint path itself for
writing, serializing translated_data into it. -/
def save_checkpoint (translated_data : List Rec) (checkpoint_num : Nat) : List FsOp :=
  [FsOp.mkdirp "checkpoints",
   FsOp.write (checkpoint_path checkpoint_num) translated_data]

/-- Does the operation list write directly to path p? -/
def writes_directly_to (ops : List FsOp) (p : String) : Bool :=
  ops.any fun op => match op with
    | .write q _ => q == p
    | _ => false

/-- Does the operation list rename some path onto path p? -/
def renames_to (ops : List FsOp) (p : String) : Bool :=
  ops.any fun op => match op with
    | .rename _ q => q == p
    | _ => false

/-- C2: for every non-empty text, when all MAX_RETRIES attempts of the v3
retrying translator fail it does not raise but returns the original text
and logs a warning, and when the first k attempts fail (k below
MAX_RETRIES) and attempt k succeeds it returns the successful result. -/
theorem C2_retry_contract (attempts : Nat → Option String) (text : String)
    (hne : text ≠ "") :
    ((∀ i, i < MAX_RETRIES → attempts i = none) →
      translate_text_v3 attempts text = ⟨text, MAX_RETRIES, true⟩)
    ∧ (∀ k t, k < MAX_RETRIES → (∀ i, i < k → attempts i = none) →
        attempts k = some t →
        (translate_text_v3 attempts text).text = t ∧
        (translate_text_v3 attempts text).warned = false) := by
  constructor
  · intro hall
    have h0 := hall 0 (by norm_num [MAX_RETRIES])
    have h1 := hall 1 (by norm_num [MAX_RETRIES])
    have h2 := hall 2 (by norm_num [MAX_RETRIES])
    simp [translate_text_v3, MAX_RETRIES, retry_loop, hne, h0, h1, h2]
  · intro k t hk hprev hsucc
    have hk3 : k < 3 := by simpa [MAX_RETRIES] using hk
    interval_cases k
    · simp [translate_text_v3, MAX_RETRIES, retry_loop, hne, hsucc]
    · have h0 := hprev 0 (by norm_num)
      simp [translate_text_v3, MAX_RETRIES, retry_loop, hne, h0, hsucc]
    · have h0 := hprev 0 (by norm_num)
      have h1 := hprev 1 (by norm_num)
      simp [translate_text_v3, MAX_RETRIES, retry_loop, hne, h0, h1, hsucc]

/-- Witness for C2 at a concrete input: with every attempt failing, the
text comes back unchanged with a warning logged. -/
theorem C2_retry_contract_witness :
    translate_text_v3 attemptsAllFail "hello" = ⟨"hello", MAX_RETRIES, true⟩ :=
  (C2_retry_contract attemptsAllFail "hello" (by decide)).1 (fun _ _ => rfl)

/-- C6 amended: the v3 translator returns empty text with zero service
invocations for empty input, but the v4 translator of translate_v4.py
invokes the service exactly once on every input, the empty text included,
and returns whatever the service produced. -/
theorem C6_empty_input_amended :
    (∀ attempts, translate_text_v3 attempts "" = ⟨"", 0, false⟩)
    ∧ (∀ svc text, (translate_text_v4 svc text).calls = 1)
    ∧ (∀ svc t, svc "" = some t → (translate_text_v4 svc "").text = t) := by
  refine ⟨fun attempts => rfl, fun svc text => ?_, fun svc t h => ?_⟩
  · cases h : svc text <;> simp [translate_text_v4, h]
  · simp [translate_text_v4, h]

/-- Witness for C6 amended: a concrete service invoked on empty input. -/
theorem C6_empty_input_amended_witness :
    (translate_text_v4 (fun _ => some "abc") "").text = "abc" :=
  C6_empty_input_amended.2.2 (fun _ => some "abc") "abc" rfl

/-- Counterexample to C6 as stated: for the empty input the v4 translator
of translate_v4.py (cited by the claim) makes one service call, not zero,
and returns the service result rather than empty text. -/
theorem C6_counterexample :
    ¬ ((translate_text_v4 (fun _ => some "abc") "").calls = 0
       ∧ (translate_text_v4 (fun _ => some "abc") "").text = "") := by
  intro h
  simpa [translate_text_v4] using h.1

/-- Field access as an Except succeeds exactly when the lookup does. -/
@[simp] theorem getFieldE_eq_ok {item : Rec} {k : String} {v : Value} :
    getFieldE item k = .ok v ↔ dictLookup item k = some v := by
  unfold getFieldE
  cases h : dictLookup item k <;> simp

/-- translate_item_v4 keeps the field names of the record, in order. -/
theorem translate_item_v4_keys (tr : String → String) :
    ∀ item out, translate_item_v4 tr item = .ok out →
      out.map Prod.fst = item.map Prod.fst := by
  intro item
  induction item with
  | nil =>
    intro out h
    simp only [translate_item_v4, Except.ok.injEq] at h
    subst h
    rfl
  | cons kv rest ih =>
    obtain ⟨k, v⟩ := kv
    intro out h
    simp only [translate_item_v4] at h
    split at h
    · exact Except.noConfusion h
    · split at h
      · exact Except.noConfusion h
      · rename_i rest2 hrest
        injection h with h2
        subst h2
        simpa using ih rest2 hrest

/-- On every field other than question_decomposition and context,
translate_item_v4 behaves pointwise: the looked-up output value is the
translate_text image of the looked-up input value. -/
theorem translate_item_v4_lookup (tr : String → String) :
    ∀ item out, translate_item_v4 tr item = .ok out →
      ∀ k, k ≠ "question_decomposition" → k ≠ "context" →
        dictLookup out k = (dictLookup item k).map (trValue tr) := by
  intro item
  induction item with
  | nil =>
    intro out h k _ _
    simp only [translate_item_v4, Except.ok.injEq] at h
    subst h
    simp [dictLookup]
  | cons kv rest ih =>
    obtain ⟨k2, v⟩ := kv
    intro out h k hq hc
    simp only [translate_item_v4] at h
    split at h
    · exact Except.noConfusion h
    · rename_i v2 hv2
      split at h
      · exact Except.noConfusion h
      · rename_i rest2 hrest
        injection h with h2
        subst h2
        by_cases hk : k2 = k
        · subst hk
          rw [if_neg hq, if_neg hc] at hv2
          injection hv2 with hv3
          subst hv3
          simp [dictLookup]
        · simp only [dictLookup, if_neg hk]
          exact ih rest2 hrest k hq hc

/-- Counterexample to C3 as stated: the field extra is not in the known
transform table, yet translate_item_v4 does not copy its string value
verbatim: the value is passed through the translator and changed. -/
theorem C3_counterexample :
    translate_item_v4 tr0 [("extra", Value.str "x")]
      = .ok [("extra", Value.str "y")]
    ∧ Value.str "y" ≠ Value.str "x" := by
  refine ⟨rfl, fun h => ?_⟩
  injection h with h2
  exact absurd h2 (by decide)

/-- C3 amended: translate_item_v4 preserves the key list of the record
(hence the key set), and a field outside the two structurally handled
names is never dropped: its value is passed through translate_text, which
changes string values but returns every non-string value unchanged (so
only non-string unknown fields are copied verbatim). -/
theorem C3_keyset_amended (tr : String → String) (item out : Rec)
    (h : translate_item_v4 tr item = .ok out) :
    out.map Prod.fst = item.map Prod.fst
    ∧ (∀ k v, k ≠ "question_decomposition" → k ≠ "context" →
        dictLookup item k = some v → dictLookup out k = some (trValue tr v))
    ∧ (∀ k v, k ≠ "question_decomposition" → k ≠ "context" →
        (∀ s, v ≠ .str s) → dictLookup item k = some v →
        dictLookup out k = some v) := by
  refine ⟨translate_item_v4_keys tr item out h, ?_, ?_⟩
  · intro k v hq hc hl
    rw [translate_item_v4_lookup tr item out h k hq hc, hl]
    rfl
  · intro k v hq hc hs hl
    rw [translate_item_v4_lookup tr item out h k hq hc, hl]
    cases v with
    | str s => exact absurd rfl (hs s)
    | int n => rfl
    | list l => rfl
    | dict d => rfl

/-- Witness for C3 amended at a concrete record. -/
theorem C3_keyset_amended_witness :
    out1.map Prod.fst = item1.map Prod.fst
    ∧ dictLookup out1 "no_of_hops" = some (Value.int 2) := by
  have h := C3_keyset_amended tr0 item1 out1 rfl
  exact ⟨h.1, h.2.2 "no_of_hops" (Value.int 2) (by decide) (by decide)
    (fun s hv => Value.noConfusion hv) rfl⟩

/-- Counterexample to C4 as stated: a string-typed metadata value is not
identical before and after translate_item_v4: answer_type holds the
string x on input and its translation y on output. -/
theorem C4_counterexample :
    translate_item_v4 tr0 [("answer_type", Value.str "x")]
      = .ok [("answer_type", Value.str "y")]
    ∧ Value.str "y" ≠ Value.str "x" := by
  refine ⟨rfl, fun h => ?_⟩
  injection h with h2
  exact absurd h2 (by decide)

/-- C4 amended: the v3 driver mapping copies the four metadata fields
unchanged whatever their type, while translate_item_v4 guarantees them
unchanged only when their value is not a string (string-typed metadata
values are passed through the translator). -/
theorem C4_metadata_amended :
    (∀ tr item out, translate_item_v3 tr item = .ok out →
       ∀ k, k ∈ metadataFields → dictLookup out k = dictLookup item k)
    ∧ (∀ tr item out k v, translate_item_v4 tr item = .ok out →
       k ∈ metadataFields → (∀ s, v ≠ .str s) →
       dictLookup item k = some v → dictLookup out k = some v) := by
  constructor
  · intro tr item out h k hk
    unfold translate_item_v3 at h
    repeat' split at h
    any_goals exact Except.noConfusion h
    injection h with h2
    subst h2
    fin_cases hk <;> simp_all +decide [dictLookup]
  · intro tr item out k v h hk hs hl
    have hq : k ≠ "question_decomposition" := by fin_cases hk <;> decide
    have hc : k ≠ "context" := by fin_cases hk <;> decide
    rw [translate_item_v4_lookup tr item out h k hq hc, hl]
    cases v with
    | str s => exact absurd rfl (hs s)
    | int n => rfl
    | list l => rfl
    | dict d => rfl

/-- Witness for C4 amended: an integer-typed metadata field survives
translate_item_v4 unchanged. -/
theorem C4_metadata_amended_witness :
    dictLookup [("no_of_hops", Value.int 5)] "no_of_hops" = some (Value.int 5) :=
  C4_metadata_amended.2 id [("no_of_hops", Value.int 5)]
    [("no_of_hops", Value.int 5)] "no_of_hops" (Value.int 5) rfl (by decide)
    (fun _ hv => Value.noConfusion hv) rfl

/-- translate_decomp_item on an item carrying the four expected fields:
sub_id is copied and the three text fields are passed through
translate_text. -/
theorem translate_decomp_item_spec (tr : String → String) (d : Rec)
    (s q a p : Value)
    (hs : dictLookup d "sub_id" = some s)
    (hq : dictLookup d "question" = some q)
    (ha : dictLookup d "answer" = some a)
    (hp : dictLookup d "paragraph_support_title" = some p) :
    translate_decomp_item tr d =
      .ok [("sub_id", s), ("question", trValue tr q), ("answer", trValue tr a),
           ("paragraph_support_title", trValue tr p)] := by
  unfold translate_decomp_item getFieldE
  rw [hs, hq, ha, hp]

/-- translate_decomp_list preserves the item count and translates each
position independently from the item at the same input position. -/
theorem translate_decomp_list_spec (tr : String → String) :
    ∀ items out, translate_decomp_list tr items = .ok out →
      out.length = items.length
      ∧ ∀ i (h1 : i < items.length) (h2 : i < out.length),
          translate_decomp_entry tr (items.get ⟨i, h1⟩) = .ok (out.get ⟨i, h2⟩) := by
  intro items
  induction items with
  | nil =>
    intro out h
    simp only [translate_decomp_list, Except.ok.injEq] at h
    subst h
    exact ⟨rfl, fun i h1 _ => absurd h1 (by simp)⟩
  | cons it rest ih =>
    intro out h
    simp only [translate_decomp_list] at h
    split at h
    · exact Except.noConfusion h
    · rename_i it2 hit
      split at h
      · exact Except.noConfusion h
      · rename_i rest2 hrest
        injection h with h2
        subst h2
        obtain ⟨hlen, hidx⟩ := ih rest2 hrest
        refine ⟨by simp [hlen], ?_⟩
        intro i h1 h2
        cases i with
        | zero => simpa using hit
        | succ n => simpa using hidx n (by simpa using h1) (by simpa using h2)

/-- C5: the structural translators touch exactly the text leaves.  For a
context carrying title and paragraphs, the title is translated and each
paragraph translated independently with order and count preserved; a
question_decomposition list keeps its length and item order, and each
item keeps sub_id unchanged while question, answer and
paragraph_support_title are translated. -/
theorem C5_structural_mapper (tr : String → String) :
    (∀ d t l, dictLookup d "title" = some t →
       dictLookup d "paragraphs" = some (.list l) →
       translate_context_v4 tr (.dict d) =
         .ok (.dict [("title", trValue tr t),
                     ("paragraphs", .list (l.map (trValue tr)))])
       ∧ (l.map (trValue tr)).length = l.length)
    ∧ (∀ d s q a p, dictLookup d "sub_id" = some s →
       dictLookup d "question" = some q →
       dictLookup d "answer" = some a →
       dictLookup d "paragraph_support_title" = some p →
       translate_decomp_item tr d =
         .ok [("sub_id", s), ("question", trValue tr q),
              ("answer", trValue tr a),
              ("paragraph_support_title", trValue tr p)])
    ∧ (∀ items out,
        translate_question_decomposition tr (.list items) = .ok (.list out) →
        out.length = items.length
        ∧ ∀ i (h1 : i < items.length) (h2 : i < out.length),
            translate_decomp_entry tr (items.get ⟨i, h1⟩) = .ok (out.get ⟨i, h2⟩)) := by
  refine ⟨?_, translate_decomp_item_spec tr, ?_⟩
  · intro d t l ht hp
    constructor
    · simp only [translate_context_v4]
      rw [ht, hp]
    · simp
  · intro items out h
    simp only [translate_question_decomposition] at h
    split at h
    · exact Except.noConfusion h
    · rename_i out2 hout
      injection h with h2
      injection h2 with h3
      subst h3
      exact translate_decomp_list_spec tr items out2 hout

/-- Witness for C5 at a concrete context: title and both paragraphs are
translated, order and count kept. -/
theorem C5_structural_mapper_witness :
    translate_context_v4 tr0 (.dict ctx1) =
      .ok (.dict [("title", Value.str "y"),
                  ("paragraphs", Value.list [Value.str "y", Value.str "p"])]) := by
  have h := ((C5_structural_mapper tr0).1 ctx1 (Value.str "x")
    [Value.str "x", Value.str "p"] rfl rfl).1
  exact h

/-- A completed loop returns the accumulator extended by one translated
record per input record. -/
theorem translation_loop_ok_shape (tr : String → String) (writeOk : Nat → Bool) :
    ∀ ds idx acc res cps,
      translation_loop tr writeOk ds idx acc = .ok (res, cps) →
      ∃ ts, res = acc ++ ts ∧ ts.length = ds.length := by
  intro ds
  induction ds with
  | nil =>
    intro idx acc res cps h
    simp only [translation_loop, Except.ok.injEq, Prod.mk.injEq] at h
    obtain ⟨h1, _⟩ := h
    subst h1
    exact ⟨[], by simp, rfl⟩
  | cons r rest ih =>
    intro idx acc res cps h
    simp only [translation_loop] at h
    split at h
    · exact Except.noConfusion h
    · rename_i r2 hr2
      split at h
      · split at h
        · split at h
          · exact Except.noConfusion h
          · rename_i res0 cps0 hrec
            injection h with h2
            injection h2 with h3 h4
            subst h3
            obtain ⟨ts, hres, hlen⟩ := ih (idx + 1) (acc ++ [r2]) res0 cps0 hrec
            exact ⟨r2 :: ts, by simp [hres], by simp [hlen]⟩
        · exact Except.noConfusion h
      · obtain ⟨ts, hres, hlen⟩ := ih (idx + 1) (acc ++ [r2]) res cps h
        exact ⟨r2 :: ts, by simp [hres], by simp [hlen]⟩

/-- In a completed loop the persisted checkpoints are exactly the prefixes
of the final list at the positive multiples of CHECKPOINT_INTERVAL that
fall inside the processed range. -/
theorem translation_loop_checkpoints (tr : String → String) (writeOk : Nat → Bool) :
    ∀ ds idx acc res cps,
      acc.length = idx →
      translation_loop tr writeOk ds idx acc = .ok (res, cps) →
      ∀ m data, (m, data) ∈ cps ↔
        (m % CHECKPOINT_INTERVAL = 0 ∧ idx < m ∧ m ≤ idx + ds.length
         ∧ data = res.take m) := by
  intro ds
  induction ds with
  | nil =>
    intro idx acc res cps hacc h
    simp only [translation_loop, Except.ok.injEq, Prod.mk.injEq] at h
    obtain ⟨_, h2⟩ := h
    subst h2
    intro m data
    simp only [List.not_mem_nil, List.length_nil, false_iff]
    rintro ⟨_, hlt, hle, _⟩
    omega
  | cons r rest ih =>
    intro idx acc res cps hacc h
    simp only [translation_loop] at h
    split at h
    · exact Except.noConfusion h
    · rename_i r2 hr2
      have hacc2 : (acc ++ [r2]).length = idx + 1 := by simp [hacc]
      split at h
      · rename_i hmod
        split at h
        · split at h
          · exact Except.noConfusion h
          · rename_i res0 cps0 hrec
            injection h with h2
            injection h2 with h3 h4
            subst h3
            subst h4
            obtain ⟨ts, hres, _⟩ :=
              translation_loop_ok_shape tr writeOk rest (idx + 1) (acc ++ [r2])
                res0 cps0 hrec
            have htake : res0.take (idx + 1) = acc ++ [r2] := by
              rw [hres, ← hacc2]
              exact List.take_left _ _
            have hch := ih (idx + 1) (acc ++ [r2]) res0 cps0 hacc2 hrec
            intro m data
            simp only [List.mem_cons, Prod.mk.injEq]
            constructor
            · rintro (⟨hm, hd⟩ | hm)
              · subst hm
                subst hd
                exact ⟨hmod, by omega, by simp, htake.symm⟩
              · obtain ⟨h5, h6, h7, h8⟩ := (hch m data).mp hm
                exact ⟨h5, by omega, by simp at h7 ⊢; omega, h8⟩
            · rintro ⟨h5, h6, h7, h8⟩
              by_cases hm : m = idx + 1
              · subst hm
                subst h8
                exact Or.inl ⟨rfl, htake⟩
              · refine Or.inr ((hch m data).mpr ⟨h5, by omega, ?_, h8⟩)
                simp at h7 ⊢
                omega
        · exact Except.noConfusion h
      · rename_i hmod
        have hch := ih (idx + 1) (acc ++ [r2]) res cps hacc2 h
        intro m data
        rw [hch m data]
        constructor
        · rintro ⟨h5, h6, h7, h8⟩
          exact ⟨h5, by omega, by simp at h7 ⊢; omega, h8⟩
        · rintro ⟨h5, h6, h7, h8⟩
          by_cases hm : m = idx + 1
          · subst hm
            exact absurd h5 hmod
          · exact ⟨h5, by omega, by simp at h7 ⊢; omega, h8⟩

/-- A completed loop passed every checkpoint write it was due: a failing
write never leaves a completed run. -/
theorem translation_loop_writes_ok (tr : String → String) (writeOk : Nat → Bool) :
    ∀ ds idx acc res cps,
      translation_loop tr writeOk ds idx acc = .ok (res, cps) →
      ∀ m, idx < m → m ≤ idx + ds.length → m % CHECKPOINT_INTERVAL = 0 →
        writeOk m = true := by
  intro ds
  induction ds with
  | nil =>
    intro idx acc res cps _ m hlt hle _
    simp only [List.length_nil] at hle
    exact absurd hlt (by omega)
  | cons r rest ih =>
    intro idx acc res cps h m hlt hle hmod
    simp only [translation_loop] at h
    split at h
    · exact Except.noConfusion h
    · rename_i r2 hr2
      split at h
      · rename_i hmod2
        split at h
        · rename_i hw
          split at h
          · exact Except.noConfusion h
          · rename_i res0 cps0 hrec
            by_cases hm : m = idx + 1
            · subst hm
              exact hw
            · exact ih (idx + 1) (acc ++ [r2]) res0 cps0 hrec m (by omega)
                (by simp at hle ⊢; omega) hmod
        · exact Except.noConfusion h
      · rename_i hmod2
        by_cases hm : m = idx + 1
        · subst hm
          exact absurd hmod hmod2
        · exact ih (idx + 1) (acc ++ [r2]) res cps h m (by omega)
            (by simp at hle ⊢; omega) hmod

/-- C10: in a run whose checkpoint writes all succeed, a checkpoint is
persisted exactly at every positive multiple of CHECKPOINT_INTERVAL within
the record count, its content is exactly the first m translated records in
input order, and nothing is checkpointed at completion, so the final
records past the last multiple appear in no checkpoint. -/
theorem C10_checkpoint_cadence (tr : String → String) (ds : List Rec)
    (res : List Rec) (cps : List Checkpoint)
    (h : translate_and_push_dataset tr (fun _ => true) [] ds = .ok (res, cps)) :
    res.length = ds.length
    ∧ ∀ m data, (m, data) ∈ cps ↔
        (m % CHECKPOINT_INTERVAL = 0 ∧ 0 < m ∧ m ≤ ds.length
         ∧ data = res.take m) := by
  obtain ⟨ts, hres, hlen⟩ :=
    translation_loop_ok_shape tr (fun _ => true) ds 0 [] res cps h
  constructor
  · rw [hres]
    simpa using hlen
  · have hch := translation_loop_checkpoints tr (fun _ => true) ds 0 [] res cps rfl h
    intro m data
    simpa using hch m data

/-- Witness for C10: a run over exactly CHECKPOINT_INTERVAL records
persists the single checkpoint (100, all translated records). -/
theorem C10_checkpoint_cadence_witness :
    ds100.length = 100 ∧ (100, ds100) ∈ [((100 : Nat), ds100)] := by
  have h := C10_checkpoint_cadence id ds100 ds100 [(100, ds100)] rfl
  refine ⟨by simp [ds100], ?_⟩
  exact (h.2 100 ds100).mpr
    ⟨by decide, by decide, by simp [ds100], by simp [ds100]⟩

/-- C1 (code evaluated at the failing behavior): the driver never consults
the persisted checkpoints: two runs over the same dataset with different
checkpoint stores are identical, and a completed run always translates
every record of the dataset, never a suffix starting at a resumed index. -/
theorem C1_checkpoints_never_loaded :
    (∀ tr writeOk store store2 ds,
       translate_and_push_dataset tr writeOk store ds
         = translate_and_push_dataset tr writeOk store2 ds)
    ∧ (∀ tr writeOk store ds res cps,
       translate_and_push_dataset tr writeOk store ds = .ok (res, cps) →
       res.length = ds.length) := by
  refine ⟨fun _ _ _ _ _ => rfl, ?_⟩
  intro tr writeOk store ds res cps h
  obtain ⟨ts, hres, hlen⟩ :=
    translation_loop_ok_shape tr writeOk ds 0 [] res cps h
  rw [hres]
  simpa using hlen

/-- Witness for C1: a persisted checkpoint makes no difference to a
restarted run, which still processes all records. -/
theorem C1_checkpoints_never_loaded_witness :
    translate_and_push_dataset id (fun _ => true) [(1, [sampleRec])] [sampleRec]
      = translate_and_push_dataset id (fun _ => true) [] [sampleRec]
    ∧ ([sampleRec] : List Rec).length = 1 := by
  refine ⟨C1_checkpoints_never_loaded.1 id (fun _ => true)
    [(1, [sampleRec])] [] [sampleRec], ?_⟩
  have h := C1_checkpoints_never_loaded.2 id (fun _ => true) [] [sampleRec]
    [sampleRec] [] rfl
  simpa using h

/-- C8 amended: save_checkpoint has no exception handler, so a checkpoint
write failure propagates: a run completes only when every due write
succeeded, a failing due write aborts the run with the error, and the
aborted run is logged and terminates with non-zero status. -/
theorem C8_checkpoint_failure_amended :
    (∀ tr writeOk store ds res cps,
       translate_and_push_dataset tr writeOk store ds = .ok (res, cps) →
       ∀ m, 0 < m → m ≤ ds.length → m % CHECKPOINT_INTERVAL = 0 →
         writeOk m = true)
    ∧ translate_and_push_dataset id (fun _ => false) [] ds100
        = .error "checkpoint write failed"
    ∧ (∀ tr writeOk store ds e,
       translate_and_push_dataset tr writeOk store ds = .error e →
       run_main tr writeOk store ds
         = (1, ["An error occurred: " ++ e, "Process failed: " ++ e])) := by
  refine ⟨?_, rfl, ?_⟩
  · intro tr writeOk store ds res cps h m h1 h2 h3
    exact translation_loop_writes_ok tr writeOk ds 0 [] res cps h m
      (by omega) (by omega) h3
  · intro tr writeOk store ds e h
    unfold run_main
    rw [h]

/-- Witness for C8 amended at concrete inputs: the completed all-writes-ok
run over ds100 had its write succeed, and the all-writes-failing run exits
with status 1 and the failure logged. -/
theorem C8_checkpoint_failure_amended_witness :
    ((fun _ => true) : Nat → Bool) 100 = true
    ∧ run_main id (fun _ => false) [] ds100
        = (1, ["An error occurred: checkpoint write failed",
               "Process failed: checkpoint write failed"]) := by
  refine ⟨?_, ?_⟩
  · exact C8_checkpoint_failure_amended.1 id (fun _ => true) [] ds100
      ds100 [(100, ds100)] rfl 100 (by decide) (by simp [ds100]) (by decide)
  · exact C8_checkpoint_failure_amended.2.2 id (fun _ => false) [] ds100
      "checkpoint write failed" rfl

/-- Counterexample to C8 as stated: with checkpoint writes failing, the
job does not continue on its in-memory state; the run is aborted with
exit status 1. -/
theorem C8_counterexample :
    run_main id (fun _ => false) [] ds100
      = (1, ["An error occurred: checkpoint write failed",
             "Process failed: checkpoint write failed"])
    ∧ (1 : Nat) ≠ 0 := ⟨rfl, by decide⟩

/-- C9 amended: a record missing a required field aborts the whole run:
the KeyError propagates out of the translation loop, is logged in
translate_and_push_dataset and main, and the process exits with non-zero
status; the logged message carries the missing key but not the record
index. -/
theorem C9_schema_violation_amended :
    (∀ tr writeOk store r rest,
       dictLookup r "question" = none →
       translate_and_push_dataset tr writeOk store (r :: rest)
         = .error "KeyError: question"
       ∧ run_main tr writeOk store (r :: rest)
         = (1, ["An error occurred: KeyError: question",
                "Process failed: KeyError: question"]))
    ∧ (∀ tr writeOk store ds e,
       translate_and_push_dataset tr writeOk store ds = .error e →
       run_main tr writeOk store ds
         = (1, ["An error occurred: " ++ e, "Process failed: " ++ e])) := by
  constructor
  · intro tr writeOk store r rest hq
    have hg : getFieldE r "question" = .error "KeyError: question" := by
      unfold getFieldE
      rw [hq]
      rfl
    have hti : translate_item_v3 tr r = .error "KeyError: question" := by
      unfold translate_item_v3
      rw [hg]
    have hloop : translation_loop tr writeOk (r :: rest) 0 []
        = .error "KeyError: question" := by
      simp only [translation_loop]
      rw [hti]
    refine ⟨hloop, ?_⟩
    simp only [run_main, translate_and_push_dataset, hloop]
    rfl
  · intro tr writeOk store ds e h
    unfold run_main
    rw [h]

/-- Witness for C9 amended: the one-record dataset whose record is empty
exits with status 1 and both error log lines. -/
theorem C9_schema_violation_amended_witness :
    run_main id (fun _ => true) [] [([] : Rec)]
      = (1, ["An error occurred: KeyError: question",
             "Process failed: KeyError: question"]) :=
  (C9_schema_violation_amended.1 id (fun _ => true) [] [] [] rfl).2

/-- Counterexample to C9 as stated: a schema violation at record index 0
and one at record index 1 produce byte-identical logs, and no log line of
the failing run contains any digit, so the record index is not part of
the logged context. -/
theorem C9_counterexample :
    run_main id (fun _ => true) [] [([] : Rec)]
        = run_main id (fun _ => true) [] [sampleRec, ([] : Rec)]
    ∧ ((run_main id (fun _ => true) [] [sampleRec, ([] : Rec)]).2.all
        (fun m => m.toList.all (fun c => !c.isDigit))) = true := by
  exact ⟨rfl, by decide⟩

/-- Counterexample to C7 as stated: the concrete save at checkpoint 100
performs no rename at all and writes directly to the final visible
checkpoint path, so it is not a write-to-temporary-then-rename commit. -/
theorem C7_counterexample :
    renames_to (save_checkpoint [] 100) (checkpoint_path 100) = false
    ∧ writes_directly_to (save_checkpoint [] 100) (checkpoint_path 100) = true :=
  ⟨rfl, by decide⟩

/-- C7 amended: every checkpoint save consists of ensuring the directory
and one direct write to the final checkpoint path; no rename onto the
checkpoint path (and no rename at all) is performed, so a crash during
the write can leave a partial file at the visible path. -/
theorem C7_save_not_atomic_amended (translated_data : List Rec) (n : Nat) :
    save_checkpoint translated_data n
      = [FsOp.mkdirp "checkpoints",
         FsOp.write (checkpoint_path n) translated_data]
    ∧ renames_to (save_checkpoint translated_data n) (checkpoint_path n) = false :=
  ⟨rfl, rfl⟩

end BengaliMorehop
